import Mathlib

set_option maxRecDepth 8000

namespace CadForge

/-- Characters of a JS string.  The TypeScript sources operate on UTF-16
strings; text is modeled as a list of characters. -/
abbrev Str := List Char

def lit (s : String) : Str := s.data

/-- ASCII lower-casing, the case folding relevant to the markers and field
keys that the source regexes match case-insensitively. -/
def lowerChar (c : Char) : Char :=
  if 'A' ≤ c ∧ c ≤ 'Z' then Char.ofNat (c.toNat + 32) else c

def lower (s : Str) : Str := s.map lowerChar

/-- JS regex \s restricted to the ASCII range (space, tab, newline, carriage
return, vertical tab, form feed); the wider Unicode whitespace set never
occurs in this development. -/
def isWs (c : Char) : Bool :=
  c == ' ' || c == '\t' || c == '\n' || c == '\r' ||
    c == Char.ofNat 11 || c == Char.ofNat 12

/-- JS String.prototype.trim on the modeled whitespace set. -/
def trim (s : Str) : Str := ((s.dropWhile isWs).reverse.dropWhile isWs).reverse

/-- Length of the leading whitespace run (a greedy \s*). -/
def wsRun (s : Str) : Nat := (s.takeWhile isWs).length

/-- The pattern occurs literally at index i of s. -/
def occursAt (pat s : Str) (i : Nat) : Bool := pat.isPrefixOf (s.drop i)

/-- First index at or after start where the pattern occurs, as a JS regex
scan finds a literal: leftmost occurrence. -/
def findFrom (pat s : Str) (start : Nat) : Option Nat :=
  ((List.range (s.length + 1)).filter
    (fun i => decide (start ≤ i) && occursAt pat s i)).head?

/-- The code-block regex of every revision,
/<openscad>([\s\S]*?)<\/openscad>/ (with or without the i flag): the match
uses the first opening marker and the first closing marker after it, and the
lazy body is the text strictly between them.  When ci is set the scan runs
over the lower-cased text while the capture keeps the original characters. -/
def extractCode (ci : Bool) (s : Str) : Option Str :=
  let hay := if ci then lower s else s
  match findFrom (lit "<openscad>") hay 0 with
  | none => none
  | some i =>
    match findFrom (lit "</openscad>") hay (i + 10) with
    | none => none
    | some j => some ((s.drop (i + 10)).take (j - (i + 10)))

/-- End position of the lazy capture of /views:([\s\S]*?)(?=\n\n|<\/|$)/i:
the earliest blank line or "</" at or after start, else end of input. -/
def termIdx (hay : Str) (start : Nat) : Nat :=
  match findFrom (lit "\n\n") hay start, findFrom (lit "</") hay start with
  | some a, some b => min a b
  | some a, none => a
  | none, some b => b
  | none, none => hay.length

/-- The views-section regex shared by part_000, part_001 and the first
index.ts revision: /views:([\s\S]*?)(?=\n\n|<\/|$)/i.  The capture runs from
just after the first (case-insensitive) "views:" to the first terminator. -/
def extractViews (s : Str) : Option Str :=
  let hay := lower s
  match findFrom (lit "views:") hay 0 with
  | none => none
  | some i => some ((s.drop (i + 6)).take (termIdx hay (i + 6) - (i + 6)))

/-- JS split of part_000 on the regex "hyphen \s*": a separator is any
hyphen together with the whitespace run following it.  Fuel only bounds the
recursion; each step consumes at least one character, so fuel = length is
never exhausted. -/
def splitHyphenGo : Nat → List Str → Str → Str → List Str
  | _, done, cur, [] => done ++ [cur.reverse]
  | 0, done, cur, rest => done ++ [cur.reverse ++ rest]
  | Nat.succ fuel, done, cur, c :: rest =>
    if c = '-' then
      splitHyphenGo fuel (done ++ [cur.reverse]) [] (rest.drop (wsRun rest))
    else
      splitHyphenGo fuel done (c :: cur) rest

def splitHyphen (s : Str) : List Str := splitHyphenGo s.length [] [] s

/-- JS split of part_001 and the first index.ts revision on the regex
"(?:newline \s*)? hyphen \s*": a separator is a hyphen with trailing
whitespace, optionally preceded by a newline and its following whitespace
run. -/
def splitDashGo : Nat → List Str → Str → Str → List Str
  | _, done, cur, [] => done ++ [cur.reverse]
  | 0, done, cur, rest => done ++ [cur.reverse ++ rest]
  | Nat.succ fuel, done, cur, c :: rest =>
    if c = '-' then
      splitDashGo fuel (done ++ [cur.reverse]) [] (rest.drop (wsRun rest))
    else if c = '\n' then
      match rest.drop (wsRun rest) with
      | '-' :: rest2 =>
        splitDashGo fuel (done ++ [cur.reverse]) [] (rest2.drop (wsRun rest2))
      | _ => splitDashGo fuel done (c :: cur) rest
    else splitDashGo fuel done (c :: cur) rest

def splitDash (s : Str) : List Str := splitDashGo s.length [] [] s

/-- JS split(/\s*,\s*/) of part_000 and the first index.ts revision: a
separator is a comma together with the whitespace runs around it. -/
def splitCommaWsGo : Nat → List Str → Str → Str → List Str
  | _, done, cur, [] => done ++ [cur.reverse]
  | 0, done, cur, rest => done ++ [cur.reverse ++ rest]
  | Nat.succ fuel, done, cur, c :: rest =>
    match (c :: rest).drop (wsRun (c :: rest)) with
    | ',' :: rest2 =>
      splitCommaWsGo fuel (done ++ [cur.reverse]) [] (rest2.drop (wsRun rest2))
    | _ => splitCommaWsGo fuel done (c :: cur) rest

def splitCommaWs (s : Str) : List Str := splitCommaWsGo s.length [] [] s

/-- JS split(/,\s*|\s+/) of part_001: a separator is either a comma with its
trailing whitespace run, or a maximal whitespace run. -/
def splitCommaOrWsGo : Nat → List Str → Str → Str → List Str
  | _, done, cur, [] => done ++ [cur.reverse]
  | 0, done, cur, rest => done ++ [cur.reverse ++ rest]
  | Nat.succ fuel, done, cur, c :: rest =>
    if c = ',' then
      splitCommaOrWsGo fuel (done ++ [cur.reverse]) [] (rest.drop (wsRun rest))
    else if isWs c then
      splitCommaOrWsGo fuel (done ++ [cur.reverse]) [] (rest.drop (wsRun rest))
    else splitCommaOrWsGo fuel done (c :: cur) rest

def splitCommaOrWs (s : Str) : List Str := splitCommaOrWsGo s.length [] [] s

def digitsToNat (l : Str) : Nat := l.foldl (fun a c => a * 10 + (c.toNat - 48)) 0

/-- Optional exponent suffix of a JS decimal literal; trailing junk is NaN. -/
def jsExp (v : ℚ) (r : Str) : Option ℚ :=
  match r with
  | [] => some v
  | e :: r2 =>
    if e == 'e' || e == 'E' then
      let sr : Bool × Str := match r2 with
        | '-' :: t => (true, t)
        | '+' :: t => (false, t)
        | t => (false, t)
      let ds := sr.2.takeWhile Char.isDigit
      if ds.isEmpty || !(sr.2.drop ds.length).isEmpty then none
      else
        let k : Nat := digitsToNat ds
        some (if sr.1 then v / 10 ^ k else v * 10 ^ k)
    else none

/-- Integer and optional fractional part of a JS decimal literal. -/
def jsMantissa (l : Str) : Option (ℚ × Str) :=
  let ip := l.takeWhile Char.isDigit
  let r1 := l.drop ip.length
  match r1 with
  | '.' :: r2 =>
    let fp := r2.takeWhile Char.isDigit
    if ip.isEmpty && fp.isEmpty then none
    else some ((digitsToNat ip : ℚ) + (digitsToNat fp : ℚ) / 10 ^ fp.length,
               r2.drop fp.length)
  | _ => if ip.isEmpty then none else some ((digitsToNat ip : ℚ), r1)

/-- JS Number(...) applied to the pieces the angle splitters produce:
whitespace is trimmed, the empty string is 0, otherwise an optional sign and
a decimal literal with optional fraction and exponent; none is NaN.
Nondecimal forms (hex, octal, binary, Infinity) are modeled as NaN; no input
of this development uses them. -/
def jsNumber (s : Str) : Option ℚ :=
  let t := trim s
  match t with
  | [] => some 0
  | '-' :: r => (jsMantissa r).bind (fun p => (jsExp p.1 p.2).map Neg.neg)
  | '+' :: r => (jsMantissa r).bind (fun p => jsExp p.1 p.2)
  | _ => (jsMantissa t).bind (fun p => jsExp p.1 p.2)

/-- Leftmost regex search: try a matcher at every position of the entry and
keep the first success, as a JS regex scan does. -/
def firstHit (f : Nat → Option Str) (n : Nat) : Option Str :=
  ((List.range n).filterMap f).head?

/-- Matcher of part_000 and the first index.ts revision for
key \s* colon \s* quote ([^quote]+) quote (case-insensitive key): the capture
is the nonempty run up to the next double quote, which must exist. -/
def tryKeyQuoted (key : Str) (s : Str) (p : Nat) : Option Str :=
  if occursAt key (lower s) p then
    let r1 := s.drop (p + key.length)
    match r1.drop (wsRun r1) with
    | ':' :: r2 =>
      match r2.drop (wsRun r2) with
      | '"' :: r3 =>
        let cap := r3.takeWhile (fun c => !(c == '"'))
        if cap.isEmpty then none
        else if cap.length < r3.length then some cap else none
      | _ => none
    | _ => none
  else none

/-- Matcher of part_000 and the first index.ts revision for
key \s* colon \s* lbracket ([^rbracket]+) rbracket (case-insensitive key). -/
def tryKeyBracket (key : Str) (s : Str) (p : Nat) : Option Str :=
  if occursAt key (lower s) p then
    let r1 := s.drop (p + key.length)
    match r1.drop (wsRun r1) with
    | ':' :: r2 =>
      match r2.drop (wsRun r2) with
      | '[' :: r3 =>
        let cap := r3.takeWhile (fun c => !(c == ']'))
        if cap.isEmpty then none
        else if cap.length < r3.length then some cap else none
      | _ => none
    | _ => none
  else none

/-- Matcher for key \s* separator \s* (\d+), case-insensitive key; the
separator is a colon, or also an equals sign when eqSep is set (part_001). -/
def tryKeyDigits (key : Str) (eqSep : Bool) (s : Str) (p : Nat) : Option Str :=
  if occursAt key (lower s) p then
    let r1 := s.drop (p + key.length)
    match r1.drop (wsRun r1) with
    | c :: r2 =>
      if c == ':' || (eqSep && c == '=') then
        let r3 := r2.drop (wsRun r2)
        let ds := r3.takeWhile Char.isDigit
        if ds.isEmpty then none else some ds
      else none
    | [] => none
  else none

/-- JS \w (ASCII letters, digits, underscore) extended with the hyphen, the
character class of part_001's name capture. -/
def isWordDash (c : Char) : Bool :=
  (decide ('a' ≤ c) && decide (c ≤ 'z')) ||
    (decide ('A' ≤ c) && decide (c ≤ 'Z')) ||
    (decide ('0' ≤ c) && decide (c ≤ '9')) || c == '_' || c == '-'

/-- part_001's tolerant name matcher:
name \s* [colon or equals] \s* quote? ([word or hyphen]+) quote?
with either quote character accepted and both quotes optional. -/
def tryName001 (s : Str) (p : Nat) : Option Str :=
  if occursAt (lit "name") (lower s) p then
    let r1 := s.drop (p + 4)
    match r1.drop (wsRun r1) with
    | c :: r2 =>
      if c == ':' || c == '=' then
        let r3 := r2.drop (wsRun r2)
        let r4 := match r3 with
          | q :: t => if q == '"' || q == '\'' then t else r3
          | [] => r3
        let cap := r4.takeWhile isWordDash
        if cap.isEmpty then none else some cap
      else none
    | [] => none
  else none

/-- Character class of part_001's angle capture: hyphen, digits, whitespace,
dot, comma. -/
def isAngleChar (c : Char) : Bool :=
  c == '-' || c.isDigit || isWs c || c == '.' || c == ','

/-- part_001's tolerant angle matcher:
angle \s* [colon or equals] \s* lbracket? \s* ([class]+) \s* rbracket?
with class as in isAngleChar.  A bracketed run with no class character makes
the regex backtrack into the preceding whitespace, producing a
whitespace-only capture; such a capture never yields three numeric parts, so
the entry is rejected exactly as when the matcher fails, and the model
returns none there. -/
def tryAngle001 (s : Str) (p : Nat) : Option Str :=
  if occursAt (lit "angle") (lower s) p then
    let r1 := s.drop (p + 5)
    match r1.drop (wsRun r1) with
    | c :: r2 =>
      if c == ':' || c == '=' then
        let r3 := r2.drop (wsRun r2)
        match r3 with
        | '[' :: r4 =>
          let r5 := r4.drop (wsRun r4)
          let cap := r5.takeWhile isAngleChar
          if cap.isEmpty then none else some cap
        | _ =>
          let cap := r3.takeWhile isAngleChar
          if cap.isEmpty then none else some cap
      else none
    | [] => none
  else none

def matchName000 (e : Str) : Option Str :=
  firstHit (tryKeyQuoted (lit "name") e) (e.length + 1)

def matchAngle000 (e : Str) : Option Str :=
  firstHit (tryKeyBracket (lit "angle") e) (e.length + 1)

def matchDistance000 (e : Str) : Option Str :=
  firstHit (tryKeyDigits (lit "distance") false e) (e.length + 1)

def matchName001 (e : Str) : Option Str :=
  firstHit (tryName001 e) (e.length + 1)

def matchAngle001 (e : Str) : Option Str :=
  firstHit (tryAngle001 e) (e.length + 1)

def matchDistance001 (e : Str) : Option Str :=
  firstHit (tryKeyDigits (lit "distance") true e) (e.length + 1)

/-- The ViewSpec interface.  The angle is kept as a list so that the
"exactly 3 components" invariant is a provable property rather than a typing
artifact;  numbers are rationals (every number the parsers build is a finite
decimal). -/
structure ViewSpec where
  name : Str
  angle : List ℚ
  distance : ℚ
deriving DecidableEq

/-- The CADModel interface (the spec's Design). -/
structure CADModel where
  code : Str
  views : List ViewSpec
deriving DecidableEq

inductive ParseErr where
  /-- "Missing OpenSCAD code section" (the spec's MissingCodeBlock). -/
  | missingCode
  /-- "Could not find properly formatted views section", thrown only by the
  YAML revision in index.ts. -/
  | missingViews
  /-- Any error of the YAML parse plus validation of the index.ts YAML
  revision, abstracted. -/
  | invalidYaml (msg : Str)
deriving DecidableEq

/-- part_000's fallback view set. -/
def defaults000 : List ViewSpec :=
  [⟨lit "front", [0, 0, 0], 150⟩,
   ⟨lit "top", [90, 0, 0], 200⟩,
   ⟨lit "iso", [45, 35, 15], 250⟩]

/-- part_001's fallback view set. -/
def defaults001 : List ViewSpec :=
  [⟨lit "front", [0, 0, 0], 150⟩,
   ⟨lit "back", [180, 0, 0], 150⟩,
   ⟨lit "left", [90, 0, 0], 150⟩,
   ⟨lit "right", [-90, 0, 0], 150⟩,
   ⟨lit "top", [0, 90, 0], 200⟩,
   ⟨lit "bottom", [0, -90, 0], 200⟩,
   ⟨lit "iso", [45, 35, 15], 300⟩]

/-- Fallback view set of the first index.ts revision. -/
def defaultsRev1 : List ViewSpec :=
  [⟨lit "front", [0, 0, 0], 100⟩,
   ⟨lit "iso", [45, 35, 0], 100⟩]

/-- One entry of part_000's view loop: name and angle matches are required
(else the entry is skipped), the angle pieces are mapped through Number and
NaN-filtered, exactly three must remain, the name is lower-cased and a
missing distance defaults to 150. -/
def parseEntry000 (e : Str) : Option ViewSpec :=
  match matchName000 e, matchAngle000 e with
  | some nm, some ang =>
    let parts := (splitCommaWs ang).filterMap jsNumber
    if parts.length = 3 then
      some { name := lower nm, angle := parts,
             distance := match matchDistance000 e with
               | some d => (digitsToNat d : ℚ)
               | none => 150 }
    else none
  | _, _ => none

/-- One entry of part_001's view loop; failures are recorded as warnings and
the entry is skipped. -/
def parseEntry001 (e : Str) : Option ViewSpec :=
  match matchName001 e, matchAngle001 e with
  | some nm, some ang =>
    let parts := (splitCommaOrWs ang).filterMap jsNumber
    if parts.length = 3 then
      some { name := lower nm, angle := parts,
             distance := match matchDistance001 e with
               | some d => (digitsToNat d : ℚ)
               | none => 150 }
    else none
  | _, _ => none

/-- One entry of the first index.ts revision's view map: any failure throws,
which the caller turns into the full default set; the name keeps its case,
the angle pieces are not NaN-filtered (any NaN throws), and a missing
distance defaults to 100. -/
def parseEntryRev1 (e : Str) : Option ViewSpec :=
  match matchName000 e, matchAngle000 e with
  | some nm, some ang =>
    let raw := (splitCommaWs ang).map jsNumber
    if raw.length = 3 ∧ raw.all Option.isSome then
      some { name := nm, angle := raw.reduceOption,
             distance := match matchDistance000 e with
               | some d => (digitsToNat d : ℚ)
               | none => 100 }
    else none
  | _, _ => none

/-- part_000's entry list: split on hyphen separators and drop everything
before the first one (slice(1)). -/
def entries000 (s : Str) : List Str :=
  match extractViews s with
  | none => []
  | some sec => (splitHyphen sec).drop 1

/-- part_001's entry list: split on the dash separators and drop empty
segments (filter(Boolean)). -/
def entries001 (s : Str) : List Str :=
  match extractViews s with
  | none => []
  | some sec => (splitDash sec).filter (fun e => !e.isEmpty)

def parsedViews000 (s : Str) : List ViewSpec :=
  (entries000 s).filterMap parseEntry000

def parsedViews001 (s : Str) : List ViewSpec :=
  (entries001 s).filterMap parseEntry001

/-- part_000's substitution policy: the parsed views are used when at least
3 of them parsed successfully, else the canonical defaults. -/
def viewsOf000 (s : Str) : List ViewSpec :=
  if 3 ≤ (parsedViews000 s).length then parsedViews000 s else defaults000

/-- part_001's substitution policy: the parsed views are used only when
strictly more than 3 parsed successfully, else the seven-view defaults. -/
def viewsOf001 (s : Str) : List ViewSpec :=
  if 3 < (parsedViews001 s).length then parsedViews001 s else defaults001

/-- parseResponse of src/unnamed/part_000. -/
def parseResponse000 (s : Str) : Except ParseErr CADModel :=
  match extractCode true s with
  | none => .error .missingCode
  | some c => .ok { code := trim c, views := viewsOf000 s }

/-- parseResponse of src/unnamed/part_001. -/
def parseResponse001 (s : Str) : Except ParseErr CADModel :=
  match extractCode true s with
  | none => .error .missingCode
  | some c => .ok { code := trim c, views := viewsOf001 s }

/-- View list of the first index.ts revision's parseResponse: defaults when
there is no views section, all-or-nothing over the entries otherwise. -/
def viewsOfRev1 (s : Str) : List ViewSpec :=
  match extractViews s with
  | none => defaultsRev1
  | some sec =>
    let es := (splitDash sec).filter (fun e => !e.isEmpty)
    let parsed := es.map parseEntryRev1
    if parsed.all Option.isSome then parsed.reduceOption else defaultsRev1

/-- parseResponse of the first revision recorded in src/index.ts (its code
regex has no i flag). -/
def parseResponseRev1 (s : Str) : Except ParseErr CADModel :=
  match extractCode false s with
  | none => .error .missingCode
  | some c => .ok { code := trim c, views := viewsOfRev1 s }

/-- The stricter views regex of the YAML revision in src/index.ts
(case-sensitive): the match needs a "views:" marker with a "newline, two
spaces, dash, space" line after it; the capture extends to the first blank
line after that, else to the end.  The capture's exact extent only feeds the
abstracted YAML library, so the model keeps it simple. -/
def yamlViewsMatch (s : Str) : Option Str :=
  match findFrom (lit "views:") s 0 with
  | none => none
  | some i =>
    match findFrom (lit "\n  - ") s (i + 6) with
    | none => none
    | some j =>
      let t := match findFrom (lit "\n\n") s (j + 5) with
        | some k => k
        | none => s.length
      some ((s.drop (i + 6)).take (t - (i + 6)))

/-- parseResponse of the YAML revision in src/index.ts.  The yaml argument
abstracts the third-party YAML library together with the revision's
per-view validation loop; every theorem about this parser quantifies over
it or fails before it is consulted. -/
def parseResponseRev2 (yaml : Str → Except Str (List ViewSpec)) (s : Str) :
    Except ParseErr CADModel :=
  match extractCode false s with
  | none => .error .missingCode
  | some c =>
    match yamlViewsMatch s with
    | none => .error .missingViews
    | some ytext =>
      match yaml ytext with
      | .error m => .error (.invalidYaml m)
      | .ok vs => .ok { code := trim c, views := vs }

/-- Views of a successful parse, for stating properties of the parsers. -/
def okViews (r : Except ParseErr CADModel) : Option (List ViewSpec) :=
  r.toOption.map (fun m => m.views)

/-- Code of a successful parse. -/
def okCode (r : Except ParseErr CADModel) : Option Str :=
  r.toOption.map (fun m => m.code)

/-- Error of a failed parse. -/
def errOf (r : Except ParseErr CADModel) : Option ParseErr :=
  match r with
  | .error e => some e
  | .ok _ => none

/-- The RenderResult interface (image carried as its encoded bytes). -/
structure RenderResult where
  view : Str
  image : Str
deriving DecidableEq

/-- The IterationState interface (the optional changes field is never
written by any revision and is omitted). -/
structure IterationState where
  timestamp : Str
  code : Str
  renders : List RenderResult
  feedback : Option Str
deriving DecidableEq

/-- The ProjectState interface, the unit of persistence. -/
structure ProjectState where
  id : Str
  originalPrompt : Str
  iterations : List IterationState
deriving DecidableEq

/-- One part of a model request: plain text or a base64 image. -/
inductive MessageContent where
  | text (t : Str)
  | image (data : Str)
deriving DecidableEq

/-- iterations[iterations.length - 1]; every caller guards the nonempty
case first, so the default is never observed. -/
def lastIterationD (st : ProjectState) : IterationState :=
  st.iterations.getLastD ⟨[], [], [], none⟩

/-- formatIterationMessage of src/unnamed/part_000. -/
def formatIterationMessage000 (st : ProjectState) (feedback : Str)
    (renders : List RenderResult) : List MessageContent :=
  [MessageContent.text
      (lit "Original Request: " ++ st.originalPrompt ++
        lit "\n\nFeedback: " ++ feedback ++
        lit "\n\nCurrent Code:\n" ++ (lastIterationD st).code ++
        lit "\n\nPlease analyze these renders:")] ++
    (renders.map (fun r =>
      [MessageContent.image r.image,
       MessageContent.text (r.view ++ lit " view")])).flatten ++
    [MessageContent.text
      (lit "Provide improved OpenSCAD code maintaining the required format.")]

/-- formatIterationMessage of src/unnamed/part_001. -/
def formatIterationMessage001 (st : ProjectState) (feedback : Str)
    (renders : List RenderResult) : List MessageContent :=
  [MessageContent.text
      (lit "Original request: " ++ st.originalPrompt ++
        lit "\n\nPrevious OpenSCAD code:\n" ++ (lastIterationD st).code ++
        lit "\n\nUser feedback:\n" ++ feedback ++
        lit "\n\nPlease analyze the following renders and make the requested improvements:")] ++
    (renders.map (fun r =>
      [MessageContent.image r.image,
       MessageContent.text (lit "↑ " ++ r.view ++ lit " view")])).flatten ++
    [MessageContent.text
      (lit "Provide updated OpenSCAD code and view specifications following the standard format.")]

inductive IterOutcome where
  | err (msg : Str)
  | ok (m : CADModel)
deriving DecidableEq

/-- Everything observable about one iterateModel call: the persisted session
slot after the call (writes are threaded explicitly; an early throw leaves
it untouched), the model request if one was sent, and the thrown error or
returned model.  The streamed model response is the llmResponse argument and
the wall-clock timestamp is the now argument. -/
structure IterateResult where
  persisted : Option ProjectState
  request : Option (List MessageContent)
  outcome : IterOutcome
deriving DecidableEq

/-- iterateModel of src/unnamed/part_000: load, require a previous
iteration, then immediately build and send the iteration request — there is
no check on the previous iteration's renders — and on a successful parse
append the new iteration and persist. -/
def iterateModel000 (persisted : Option ProjectState)
    (feedback llmResponse now : Str) : IterateResult :=
  match persisted with
  | none => ⟨persisted, none, .err (lit "No existing session found")⟩
  | some st =>
    if st.iterations.isEmpty then
      ⟨persisted, none, .err (lit "No previous model found")⟩
    else
      let req := formatIterationMessage000 st feedback (lastIterationD st).renders
      match parseResponse000 llmResponse with
      | .error _ => ⟨persisted, some req, .err (lit "Missing OpenSCAD code section")⟩
      | .ok model =>
        ⟨some { st with
            iterations := st.iterations ++ [⟨now, model.code, [], some feedback⟩] },
         some req, .ok model⟩

/-- iterateModel of src/unnamed/part_001: load, require a previous
iteration, require that its render list is nonempty, and only then build and
send the iteration request. -/
def iterateModel001 (persisted : Option ProjectState)
    (feedback llmResponse now : Str) : IterateResult :=
  match persisted with
  | none =>
    ⟨persisted, none, .err (lit "No existing CAD session found. Use \"create\" first.")⟩
  | some st =>
    if st.iterations.isEmpty then
      ⟨persisted, none, .err (lit "No previous model found. Use \"create\" first.")⟩
    else if (lastIterationD st).renders.isEmpty then
      ⟨persisted, none, .err (lit "No renders found from previous iteration")⟩
    else
      let req := formatIterationMessage001 st feedback (lastIterationD st).renders
      match parseResponse001 llmResponse with
      | .error _ => ⟨persisted, some req, .err (lit "Missing OpenSCAD code section")⟩
      | .ok model =>
        ⟨some { st with
            iterations := st.iterations ++ [⟨now, model.code, [], some feedback⟩] },
         some req, .ok model⟩

/-- The camera argument built per view by part_000's render: a translation
prefix, three rotations and a distance.  JS would propagate undefined for a
missing angle component; the parsers only ever produce three components
(see the invariants claim), so the getD defaults are never observed. -/
structure Camera000 where
  tx : ℚ
  ty : ℚ
  tz : ℚ
  rx : ℚ
  ry : ℚ
  rz : ℚ
  dist : ℚ
deriving DecidableEq

/-- The per-view camera derivation of src/unnamed/part_000 (lines 94-117):
fixed overrides for the canonical names front, top and iso, and for any
other name the literal angles with the distance floor-clamped to
baseDistance = 100. -/
def cameraFor000 (v : ViewSpec) : Camera000 :=
  let baseDistance : ℚ := 100
  let validatedDistance : ℚ := max v.distance baseDistance
  let rotX := v.angle.getD 0 0
  let rotY := v.angle.getD 1 0
  let rotZ := v.angle.getD 2 0
  if v.name = lit "front" then ⟨0, 0, 0, 0, 5, 0, baseDistance⟩
  else if v.name = lit "top" then ⟨0, 0, 0, 90, 0, 10, baseDistance⟩
  else if v.name = lit "iso" then ⟨20, 0, 0, 35, 0, 25, baseDistance * 1.2⟩
  else ⟨0, 0, 0, rotX, rotY, rotZ, validatedDistance⟩

/-- Outcome of the external render of one view: the produced image bytes or
the failure cause.  This abstracts the openscad process invocation plus the
readback of the output file. -/
abbrev RenderOracle := ViewSpec → Except Str Str

inductive RenderRes where
  | err (msg : Str)
  | ok (rs : List RenderResult)
deriving DecidableEq

/-- Everything observable about one render call: its outcome and whether the
per-call scratch directory was removed by the call itself. -/
structure RenderOutcome where
  res : RenderRes
  tempCleaned : Bool
deriving DecidableEq

/-- The view loop of part_000's render: camera derivation, external process,
readback; the catch block runs cleanup and rethrows "Render failed: cause"
(without the view name); after the loop cleanup runs again. -/
def renderLoop000 (oracle : RenderOracle) :
    List ViewSpec → List RenderResult → RenderOutcome
  | [], acc => ⟨.ok acc.reverse, true⟩
  | v :: rest, acc =>
    let _cam := cameraFor000 v
    match oracle v with
    | .error cause => ⟨.err (lit "Render failed: " ++ cause), true⟩
    | .ok img => renderLoop000 oracle rest (⟨v.name, img⟩ :: acc)

def render000 (oracle : RenderOracle) (m : CADModel) : RenderOutcome :=
  renderLoop000 oracle m.views []

/-- The view loop of part_001's render.  Its camera derivation is
trigonometric over floats and none of the claims depends on it, so only the
loop structure is embedded: the catch block runs cleanup and rethrows
"Failed to render name: cause". -/
def renderLoop001 (oracle : RenderOracle) :
    List ViewSpec → List RenderResult → RenderOutcome
  | [], acc => ⟨.ok acc.reverse, true⟩
  | v :: rest, acc =>
    match oracle v with
    | .error cause =>
      ⟨.err (lit "Failed to render " ++ v.name ++ lit ": " ++ cause), true⟩
    | .ok img => renderLoop001 oracle rest (⟨v.name, img⟩ :: acc)

def render001 (oracle : RenderOracle) (m : CADModel) : RenderOutcome :=
  renderLoop001 oracle m.views []

/-- The wrapped error message of the first index.ts revision's render. -/
def msgRev1 (v : ViewSpec) (cause : Str) : Str :=
  lit "Failed to render view " ++ v.name ++ lit ": " ++ cause

/-- The view loop of the first index.ts revision's render: per-view
validation of the angle arity and the distance sign, then the external
process; the catch block rethrows with the view name but does NOT run
cleanup, so a failing call leaves the scratch directory behind. -/
def renderLoopRev1 (oracle : RenderOracle) :
    List ViewSpec → List RenderResult → RenderOutcome
  | [], acc => ⟨.ok acc.reverse, true⟩
  | v :: rest, acc =>
    if ¬ v.angle.length = 3 then
      ⟨.err (msgRev1 v (lit "Invalid angle array for view " ++ v.name)), false⟩
    else if v.distance ≤ 0 then
      ⟨.err (msgRev1 v (lit "Invalid distance value for view " ++ v.name)), false⟩
    else
      match oracle v with
      | .error cause => ⟨.err (msgRev1 v cause), false⟩
      | .ok img => renderLoopRev1 oracle rest (⟨v.name, img⟩ :: acc)

def renderRev1 (oracle : RenderOracle) (m : CADModel) : RenderOutcome :=
  renderLoopRev1 oracle m.views []

/-- The error message names one of the given views. -/
def errorNamesView (views : List ViewSpec) (msg : Str) : Bool :=
  views.any (fun v => (findFrom v.name msg 0).isSome)

/-- The per-view data-model invariant of the spec: nonempty name, exactly
three angle components, positive distance. -/
def viewInvariant (v : ViewSpec) : Bool :=
  !v.name.isEmpty && (v.angle.length == 3) && decide (0 < v.distance)

/-- The invariant weakened to a nonnegative distance, which is what the
parsers actually guarantee (the digits-only distance syntax admits 0). -/
def viewInvariantNonneg (v : ViewSpec) : Bool :=
  !v.name.isEmpty && (v.angle.length == 3) && decide (0 ≤ v.distance)

/-- A raw response with a valid code block and exactly three well-formed
view entries, in the surface syntax part_001's matchers accept. -/
def respC1 : Str := lit "<openscad>cube(1);</openscad>\nviews:\n- name: \"front\" angle: [0,0,0] distance: 150\n- name: \"top\" angle: [90,0,0] distance: 200\n- name: \"iso\" angle: [45,35,15] distance: 250"

/-- A response that contains the code-block markers but no views section. -/
def respC2 : Str := lit "<openscad>cube();</openscad>"

/-- A concrete stand-in for the abstracted YAML library. -/
def yamlOracle0 : Str → Except Str (List ViewSpec) := fun _ => .ok []

/-- A raw response with a valid code block and three well-formed entries,
one of whose names carries an upper-case letter. -/
def respC3 : Str := lit "<openscad>c</openscad>\nviews:\n- name: \"Front\" angle: [0, 0, 0] distance: 100\n- name: \"top\" angle: [90, 0, 0]\n- name: \"iso\" angle: [45, 35, 0] distance: 100"

/-- A raw response with three well-formed entries whose distances are the
literal 0, which the digits-only distance syntax accepts. -/
def respC4 : Str := lit "<openscad>c</openscad>\nviews:\n- name: \"a\" angle: [0,0,0] distance: 0\n- name: \"b\" angle: [0,0,0] distance: 0\n- name: \"c\" angle: [0,0,0] distance: 0"

/-- A response with a code block and no views section (parses to the
default view set). -/
def respC4w : Str := lit "<openscad>k</openscad>"

/-- A persisted session whose single iteration has an empty render list. -/
def st0C5 : ProjectState :=
  ⟨lit "s1", lit "a cube", [⟨lit "t0", lit "old", [], none⟩]⟩

/-- A well-formed model response for the continuation call. -/
def respC5 : Str := lit "<openscad>s();</openscad>"

/-- A session for the claim5 witness, also with zero renders. -/
def stW5 : ProjectState :=
  ⟨lit "s2", lit "a pin", [⟨lit "t0", lit "c0", [], none⟩]⟩

/-- An external render that fails on every view. -/
def failOracle : RenderOracle := fun _ => .error (lit "boom")

/-- A one-view design for the render-failure scenarios. -/
def modelC7 : CADModel := ⟨lit "cube();", [⟨lit "front", [0, 0, 0], 150⟩]⟩

/-- An external render that succeeds on every view. -/
def okOracleC8 : RenderOracle := fun _ => .ok (lit "img")

/-- A two-view design for the render-success scenario. -/
def modelC8 : CADModel :=
  ⟨lit "cube();", [⟨lit "front", [0, 0, 0], 150⟩, ⟨lit "side", [0, 90, 0], 200⟩]⟩

/-- The concrete prefix used in the views-section extent scenario: a code
block followed by the views marker. -/
def preC10 : Str := lit "<openscad> q </openscad>\nviews:"

/-- A response containing two delimited code sections: the first with body
a, then filler, then a second one with body c, then a trailing rest. -/
def twoBlocks (a mid c tail : Str) : Str :=
  lit "<openscad>" ++
    (a ++ (lit "</openscad>" ++ (mid ++ (lit "<openscad>" ++
      (c ++ (lit "</openscad>" ++ tail))))))

/-- A response whose views section is the text a, terminated by a blank
line, with arbitrary text after the terminator. -/
def viewsScene (a post : Str) : Str :=
  preC10 ++ (a ++ (lit "\n\n" ++ post))

/-! ### Support lemmas about the string scanning primitives -/

theorem isPrefixOf_append_self (p b : Str) : p.isPrefixOf (p ++ b) = true := by
  induction p with
  | nil => simp [List.isPrefixOf]
  | cons c cs ih => simp [List.isPrefixOf, ih]

theorem occursAt_zero (p r : Str) : occursAt p (p ++ r) 0 = true := by
  unfold occursAt
  rw [List.drop_zero]
  exact isPrefixOf_append_self p r

theorem occursAt_append_mid (a p b : Str) :
    occursAt p (a ++ (p ++ b)) a.length = true := by
  unfold occursAt
  rw [List.drop_left]
  exact isPrefixOf_append_self p b

theorem findFrom_zero (p s : Str) (h : occursAt p s 0 = true) :
    findFrom p s 0 = some 0 := by
  unfold findFrom
  rw [List.range_succ_eq_map]
  simp [List.filter, h]

theorem findFrom_isSome_of_occursAt (p s : Str) (i : Nat)
    (h : occursAt p s i = true) : (findFrom p s 0).isSome = true := by
  have hocc : occursAt p s (min i s.length) = true := by
    rcases le_or_lt i s.length with hle | hlt
    · rwa [min_eq_left hle]
    · rw [min_eq_right (le_of_lt hlt)]
      unfold occursAt at h ⊢
      rw [List.drop_length]
      rwa [List.drop_eq_nil_of_le (le_of_lt hlt)] at h
  have hmem : (min i s.length) ∈ (List.range (s.length + 1)).filter
      (fun j => decide (0 ≤ j) && occursAt p s j) := by
    rw [List.mem_filter]
    refine ⟨List.mem_range.mpr (Nat.lt_succ_of_le (Nat.min_le_right _ _)), ?_⟩
    simp [hocc]
  have hne := List.ne_nil_of_mem hmem
  unfold findFrom
  cases hfl : (List.range (s.length + 1)).filter
      (fun j => decide (0 ≤ j) && occursAt p s j) with
  | nil => exact absurd hfl hne
  | cons x t => simp [hfl]

theorem lower_append (x y : Str) : lower (x ++ y) = lower x ++ lower y :=
  List.map_append lowerChar x y

theorem slice_mid (p a r : Str) :
    ((p ++ (a ++ r)).drop p.length).take a.length = a := by
  rw [List.drop_left, List.take_left]

theorem firstHit_exists (f : Nat → Option Str) (n : Nat) (x : Str)
    (h : firstHit f n = some x) : ∃ p, f p = some x := by
  unfold firstHit at h
  have hx : x ∈ (List.range n).filterMap f := by
    cases hfl : (List.range n).filterMap f with
    | nil => rw [hfl] at h; exact absurd h (by simp)
    | cons y t =>
      rw [hfl] at h
      have hyx : y = x := by
        simp only [List.head?] at h
        exact Option.some.inj h
      exact hyx ▸ List.mem_cons_self y t
  rcases List.mem_filterMap.mp hx with ⟨p, _, hp⟩
  exact ⟨p, hp⟩

theorem lower_isEmpty (l : Str) : (lower l).isEmpty = l.isEmpty := by
  cases l <;> rfl

/-! ### Claim C1: threshold for using parsed views -/

/-- C1, counterexample: respC1 has a valid code block and exactly 3
successfully parsed view entries, yet part_001's parse discards them and
returns its default view set — its threshold is strictly more than 3, not
"meets or exceeds 3" as claimed. -/
theorem claim1_counterexample :
    (parsedViews001 respC1).length = 3 ∧
      okViews (parseResponse001 respC1) = some defaults001 ∧
      ¬ defaults001 = parsedViews001 respC1 :=
  ⟨by decide, by decide, by decide⟩

/-- C1, amended: for every raw response with a valid code block, part_000's
parse returns exactly the successfully parsed views when their number is at
least 3 and otherwise its fixed front/top/iso default set, while part_001's
parse returns the parsed views only when their number strictly exceeds 3
and otherwise its fixed seven-view default set; neither ever returns a mix
of parsed views and defaults. -/
theorem claim1_theorem (s c : Str) (hc : extractCode true s = some c) :
    parseResponse000 s = .ok ⟨trim c, viewsOf000 s⟩ ∧
    (3 ≤ (parsedViews000 s).length → viewsOf000 s = parsedViews000 s) ∧
    ((parsedViews000 s).length < 3 → viewsOf000 s = defaults000) ∧
    parseResponse001 s = .ok ⟨trim c, viewsOf001 s⟩ ∧
    (3 < (parsedViews001 s).length → viewsOf001 s = parsedViews001 s) ∧
    ((parsedViews001 s).length ≤ 3 → viewsOf001 s = defaults001) := by
  refine ⟨?_, ?_, ?_, ?_, ?_, ?_⟩
  · unfold parseResponse000
    rw [hc]
  · intro h
    unfold viewsOf000
    rw [if_pos h]
  · intro h
    unfold viewsOf000
    rw [if_neg (by omega)]
  · unfold parseResponse001
    rw [hc]
  · intro h
    unfold viewsOf001
    rw [if_pos h]
  · intro h
    unfold viewsOf001
    rw [if_neg (by omega)]

/-- C1, witness: the amended theorem applied at respC1. -/
theorem claim1_witness : viewsOf001 respC1 = defaults001 :=
  (claim1_theorem respC1 (lit "cube(1);") (by decide)).2.2.2.2.2 (by decide)

/-! ### Claim C2: parse throws exactly when the code block is missing -/

/-- C2, counterexample: respC2 contains the code-block markers, yet the YAML
revision of parseResponse in src/index.ts throws "Could not find properly
formatted views section" — so parse throwing is not equivalent to a missing
code block in that revision. -/
theorem claim2_counterexample :
    errOf (parseResponseRev2 yamlOracle0 respC2) = some ParseErr.missingViews ∧
      (extractCode false respC2).isSome = true :=
  ⟨by decide, by decide⟩

/-- C2, amended: part_000's and part_001's parse fail with MissingCodeBlock
exactly when the delimited code section is absent and return a Design on
every input that contains it (malformed view sections only warn); the YAML
revision in src/index.ts additionally throws, regardless of the YAML
library's behaviour, whenever its stricter views pattern finds no match
even though the code block is present. -/
theorem claim2_theorem (s : Str) :
    (extractCode true s = none →
      parseResponse000 s = .error .missingCode ∧
        parseResponse001 s = .error .missingCode) ∧
    (∀ c, extractCode true s = some c →
      parseResponse000 s = .ok ⟨trim c, viewsOf000 s⟩ ∧
        parseResponse001 s = .ok ⟨trim c, viewsOf001 s⟩) ∧
    (∀ (yaml : Str → Except Str (List ViewSpec)) (c : Str),
      extractCode false s = some c → yamlViewsMatch s = none →
      parseResponseRev2 yaml s = .error .missingViews) := by
  refine ⟨?_, ?_, ?_⟩
  · intro h
    constructor
    · unfold parseResponse000
      rw [h]
    · unfold parseResponse001
      rw [h]
  · intro c h
    constructor
    · unfold parseResponse000
      rw [h]
    · unfold parseResponse001
      rw [h]
  · intro yaml c h1 h2
    unfold parseResponseRev2
    rw [h1, h2]

/-- C2, witness: the amended theorem applied at concrete inputs on the
missing-marker side (both parsers), the marker-present side (part_000
returns a Design), and the missing-views side of the YAML revision. -/
theorem claim2_witness :
    parseResponse000 (lit "no markers here") = .error .missingCode ∧
      parseResponse001 (lit "no markers here") = .error .missingCode ∧
      parseResponse000 (lit "<openscad>x</openscad>") =
        .ok ⟨trim (lit "x"), viewsOf000 (lit "<openscad>x</openscad>")⟩ ∧
      parseResponseRev2 yamlOracle0 (lit "<openscad>x</openscad>") =
        .error .missingViews :=
  ⟨((claim2_theorem (lit "no markers here")).1 (by decide)).1,
   ((claim2_theorem (lit "no markers here")).1 (by decide)).2,
   ((claim2_theorem (lit "<openscad>x</openscad>")).2.1 (lit "x") (by decide)).1,
   (claim2_theorem (lit "<openscad>x</openscad>")).2.2 yamlOracle0 (lit "x")
     (by decide) (by decide)⟩

/-! ### Claim C3: parsed views are returned verbatim, lower-cased, defaulted -/

/-- C3, counterexample: respC3 has a valid code block and three well-formed
view entries, but the first index.ts revision's parse returns the name
"Front" with its upper-case letter intact — names are not lower-cased there
(and its default distance is 100, not part_000's 150). -/
theorem claim3_counterexample :
    (parseResponseRev1 respC3).toOption.map (fun m => m.views.map (fun v => v.name)) =
      some [lit "Front", lit "top", lit "iso"] ∧
      ¬ lit "Front" = lower (lit "Front") :=
  ⟨by decide, by decide⟩

/-- C3, amended: for part_000's parse, any raw response with a valid code
block in which at least 3 view entries parse successfully yields exactly
those views, in entry order (the filterMap over the split entries), with
every successfully parsed entry's name lower-cased and its distance taken
from the entry when present and the fixed default 150 otherwise.  (part_001
requires strictly more than 3 entries, and the index.ts revisions keep the
name's case.) -/
theorem claim3_theorem (s c : Str) (hc : extractCode true s = some c)
    (h3 : 3 ≤ (parsedViews000 s).length) :
    parseResponse000 s = .ok ⟨trim c, (entries000 s).filterMap parseEntry000⟩ ∧
    (∀ e v, parseEntry000 e = some v →
      v.name = lower ((matchName000 e).getD []) ∧
      (matchDistance000 e = none → v.distance = 150) ∧
      (∀ d, matchDistance000 e = some d → v.distance = (digitsToNat d : ℚ))) := by
  constructor
  · unfold parseResponse000
    rw [hc]
    have hv : viewsOf000 s = parsedViews000 s := by
      unfold viewsOf000
      rw [if_pos h3]
    rw [hv]
    rfl
  · intro e v h
    unfold parseEntry000 at h
    cases hn : matchName000 e with
    | none =>
      rw [hn] at h
      simp at h
    | some nm =>
      cases ha : matchAngle000 e with
      | none =>
        rw [hn, ha] at h
        simp at h
      | some ang =>
        simp only [hn, ha] at h
        by_cases hl : ((splitCommaWs ang).filterMap jsNumber).length = 3
        · rw [if_pos hl] at h
          cases hd : matchDistance000 e with
          | none =>
            simp only [hd] at h
            have hv := Option.some.inj h
            refine ⟨?_, ?_, ?_⟩
            · rw [← hv]
              rfl
            · intro _
              rw [← hv]
            · intro d hd2
              simp at hd2
          | some d0 =>
            simp only [hd] at h
            have hv := Option.some.inj h
            refine ⟨?_, ?_, ?_⟩
            · rw [← hv]
              rfl
            · intro hd2
              simp at hd2
            · intro d hd2
              rw [← hv, Option.some.inj hd2]
        · rw [if_neg hl] at h
          simp at h

/-- C3, witness: the amended theorem applied at respC3. -/
theorem claim3_witness :
    parseResponse000 respC3 =
      .ok ⟨trim (lit "c"), (entries000 respC3).filterMap parseEntry000⟩ :=
  (claim3_theorem respC3 (lit "c") (by decide) (by decide)).1

/-! ### Claim C4: data-model invariant of parsed views -/

theorem tryKeyQuoted_ne (k s : Str) (p : Nat) (nm : Str)
    (h : tryKeyQuoted k s p = some nm) : nm.isEmpty = false := by
  unfold tryKeyQuoted at h
  dsimp only at h
  split at h
  · split at h
    · split at h
      · split at h
        · simp at h
        · split at h
          · rename_i hcap hlen
            rw [← Option.some.inj h]
            simpa using hcap
          · simp at h
      · simp at h
    · simp at h
  · simp at h

theorem tryName001_ne (s : Str) (p : Nat) (nm : Str)
    (h : tryName001 s p = some nm) : nm.isEmpty = false := by
  unfold tryName001 at h
  dsimp only at h
  split at h
  · split at h
    · split at h
      · split at h
        · simp at h
        · rename_i hcap
          rw [← Option.some.inj h]
          simpa using hcap
      · simp at h
    · simp at h
  · simp at h

theorem parseEntry000_inv (e : Str) (v : ViewSpec)
    (h : parseEntry000 e = some v) : viewInvariantNonneg v = true := by
  unfold parseEntry000 at h
  cases hn : matchName000 e with
  | none =>
    rw [hn] at h
    simp at h
  | some nm =>
    cases ha : matchAngle000 e with
    | none =>
      rw [hn, ha] at h
      simp at h
    | some ang =>
      simp only [hn, ha] at h
      by_cases hl : ((splitCommaWs ang).filterMap jsNumber).length = 3
      · rw [if_pos hl] at h
        have hnm : nm.isEmpty = false := by
          obtain ⟨p, hp⟩ := firstHit_exists _ _ _ hn
          exact tryKeyQuoted_ne _ _ _ _ hp
        have hv := Option.some.inj h
        rw [← hv]
        unfold viewInvariantNonneg
        simp only [Bool.and_eq_true]
        refine ⟨⟨?_, ?_⟩, ?_⟩
        · show (!(lower nm).isEmpty) = true
          rw [lower_isEmpty, hnm]
          rfl
        · simp [hl]
        · cases matchDistance000 e with
          | none => exact decide_eq_true (by norm_num)
          | some d0 => exact decide_eq_true (Nat.cast_nonneg _)
      · rw [if_neg hl] at h
        simp at h

theorem parseEntry001_inv (e : Str) (v : ViewSpec)
    (h : parseEntry001 e = some v) : viewInvariantNonneg v = true := by
  unfold parseEntry001 at h
  cases hn : matchName001 e with
  | none =>
    rw [hn] at h
    simp at h
  | some nm =>
    cases ha : matchAngle001 e with
    | none =>
      rw [hn, ha] at h
      simp at h
    | some ang =>
      simp only [hn, ha] at h
      by_cases hl : ((splitCommaOrWs ang).filterMap jsNumber).length = 3
      · rw [if_pos hl] at h
        have hnm : nm.isEmpty = false := by
          obtain ⟨p, hp⟩ := firstHit_exists _ _ _ hn
          exact tryName001_ne _ _ _ hp
        have hv := Option.some.inj h
        rw [← hv]
        unfold viewInvariantNonneg
        simp only [Bool.and_eq_true]
        refine ⟨⟨?_, ?_⟩, ?_⟩
        · show (!(lower nm).isEmpty) = true
          rw [lower_isEmpty, hnm]
          rfl
        · simp [hl]
        · cases matchDistance001 e with
          | none => exact decide_eq_true (by norm_num)
          | some d0 => exact decide_eq_true (Nat.cast_nonneg _)
      · rw [if_neg hl] at h
        simp at h

theorem viewsOf000_inv (s : Str) :
    (viewsOf000 s).all viewInvariantNonneg = true := by
  unfold viewsOf000
  split
  · rw [List.all_eq_true]
    intro v hv
    unfold parsedViews000 at hv
    obtain ⟨e, _, he⟩ := List.mem_filterMap.mp hv
    exact parseEntry000_inv e v he
  · decide

theorem viewsOf001_inv (s : Str) :
    (viewsOf001 s).all viewInvariantNonneg = true := by
  unfold viewsOf001
  split
  · rw [List.all_eq_true]
    intro v hv
    unfold parsedViews001 at hv
    obtain ⟨e, _, he⟩ := List.mem_filterMap.mp hv
    exact parseEntry001_inv e v he
  · decide

/-- C4, counterexample: on respC4 part_000's parse succeeds with three
views whose distances are all the literal 0 — the digits-only distance
syntax accepts 0, so "distance strictly greater than 0" fails on the
returned Design. -/
theorem claim4_counterexample :
    (parseResponse000 respC4).toOption.map (fun m => m.views.all viewInvariant) =
      some false ∧
    (parseResponse000 respC4).toOption.map
        (fun m => m.views.map (fun v => v.distance)) = some [0, 0, 0] :=
  ⟨by decide, by decide⟩

/-- C4, amended: every ViewSpec in a Design returned by part_000's or
part_001's parse has a nonempty name, exactly 3 numeric angle components,
and a nonnegative distance (a present distance parses as a nonnegative
integer — zero is accepted — and an absent one gets a positive default). -/
theorem claim4_theorem (s : Str) (m : CADModel) :
    (parseResponse000 s = .ok m → m.views.all viewInvariantNonneg = true) ∧
    (parseResponse001 s = .ok m → m.views.all viewInvariantNonneg = true) := by
  constructor
  · intro h
    unfold parseResponse000 at h
    cases hc : extractCode true s with
    | none =>
      rw [hc] at h
      simp at h
    | some c =>
      rw [hc] at h
      have hm := Except.ok.inj h
      rw [← hm]
      exact viewsOf000_inv s
  · intro h
    unfold parseResponse001 at h
    cases hc : extractCode true s with
    | none =>
      rw [hc] at h
      simp at h
    | some c =>
      rw [hc] at h
      have hm := Except.ok.inj h
      rw [← hm]
      exact viewsOf001_inv s

/-- C4, witness: the amended theorem applied at respC4w. -/
theorem claim4_witness :
    (⟨trim (lit "k"), defaults000⟩ : CADModel).views.all viewInvariantNonneg = true :=
  (claim4_theorem respC4w ⟨trim (lit "k"), defaults000⟩).1 rfl

/-! ### Claim C5: continueSession with zero renders -/

/-- C5, counterexample: on a persisted session whose only iteration has an
empty render list, part_000's iterateModel does NOT fail before the model
request — it builds and sends the request (with zero image parts) and, on a
successful parse, appends an iteration and changes the persisted state. -/
theorem claim5_counterexample :
    (iterateModel000 (some st0C5) (lit "bigger") respC5 (lit "t1")).request.isSome = true ∧
      ¬ (iterateModel000 (some st0C5) (lit "bigger") respC5 (lit "t1")).persisted =
          some st0C5 :=
  ⟨by decide, by decide⟩

/-- C5, amended: part_001's iterateModel (the spec's continueSession),
called when the loaded session's latest iteration has an empty render list,
fails with the NoRendersYet error before any model request is made, and the
persisted session state is returned unchanged by that failing call.
(part_000's revision has no such check and proceeds to the request.) -/
theorem claim5_theorem (persisted : Option ProjectState) (st : ProjectState)
    (feedback llmResponse now : Str) (h1 : persisted = some st)
    (h2 : ¬ st.iterations.isEmpty = true)
    (h3 : (lastIterationD st).renders.isEmpty = true) :
    iterateModel001 persisted feedback llmResponse now =
      ⟨persisted, none, .err (lit "No renders found from previous iteration")⟩ := by
  subst h1
  simp only [iterateModel001]
  rw [if_neg h2, if_pos h3]

/-- C5, witness: the amended theorem applied at stW5. -/
theorem claim5_witness :
    iterateModel001 (some stW5) (lit "f") (lit "r") (lit "t") =
      ⟨some stW5, none, .err (lit "No renders found from previous iteration")⟩ :=
  claim5_theorem (some stW5) stW5 (lit "f") (lit "r") (lit "t") rfl
    (by decide) (by decide)

/-! ### Claim C6: camera resolution determinism and distance clamping -/

/-- C6, counterexample: for an "iso"-named view with distance 50 (below the
floor 100), part_000's camera derivation uses 120 — neither the raw
distance nor the floor value, contradicting "the distance used is the
floor value". -/
theorem claim6_counterexample :
    (cameraFor000 ⟨lit "iso", [45, 35, 15], 50⟩).dist = 120 ∧
      (50 : ℚ) < 100 ∧
      ¬ (cameraFor000 ⟨lit "iso", [45, 35, 15], 50⟩).dist = 100 ∧
      ¬ (cameraFor000 ⟨lit "iso", [45, 35, 15], 50⟩).dist =
          (⟨lit "iso", [45, 35, 15], 50⟩ : ViewSpec).distance := by
  have hc : (cameraFor000 ⟨lit "iso", [45, 35, 15], 50⟩).dist = 100 * 1.2 := by
    unfold cameraFor000
    dsimp only
    rw [if_neg (by decide), if_neg (by decide), if_pos rfl]
  rw [hc]
  refine ⟨by norm_num, by norm_num, by norm_num, ?_⟩
  show ¬ (100 * 1.2 : ℚ) = 50
  norm_num

/-- C6, amended: part_000's camera derivation is deterministic (equal
ViewSpecs yield identical camera parameters), and for every ViewSpec whose
distance is below the fixed floor 100 the distance in the resulting camera
parameters is at least the floor and is never the raw distance (front, top
and generic names use exactly the floor; iso uses the fixed value 120). -/
theorem claim6_theorem :
    (∀ v w : ViewSpec, v = w → cameraFor000 v = cameraFor000 w) ∧
    (∀ v : ViewSpec, v.distance < 100 →
      100 ≤ (cameraFor000 v).dist ∧ ¬ (cameraFor000 v).dist = v.distance) := by
  constructor
  · intro v w h
    rw [h]
  · intro v h
    unfold cameraFor000
    dsimp only
    by_cases h1 : v.name = lit "front"
    · rw [if_pos h1]
      refine ⟨le_refl 100, fun he => ?_⟩
      have he2 : (100 : ℚ) = v.distance := he
      rw [← he2] at h
      exact absurd h (lt_irrefl _)
    · rw [if_neg h1]
      by_cases h2 : v.name = lit "top"
      · rw [if_pos h2]
        refine ⟨le_refl 100, fun he => ?_⟩
        have he2 : (100 : ℚ) = v.distance := he
        rw [← he2] at h
        exact absurd h (lt_irrefl _)
      · rw [if_neg h2]
        by_cases h3 : v.name = lit "iso"
        · rw [if_pos h3]
          refine ⟨(by norm_num : (100 : ℚ) ≤ 100 * 1.2), fun he => ?_⟩
          have he2 : (100 * 1.2 : ℚ) = v.distance := he
          rw [← he2] at h
          norm_num at h
        · rw [if_neg h3]
          refine ⟨le_max_right v.distance 100, fun he => ?_⟩
          have he2 : max v.distance 100 = v.distance := he
          rw [max_eq_right (le_of_lt h)] at he2
          rw [← he2] at h
          exact absurd h (lt_irrefl _)

/-- C6, witness: the amended theorem applied at a generic-named view with
distance 50. -/
theorem claim6_witness :
    100 ≤ (cameraFor000 ⟨lit "left", [0, 90, 0], 50⟩).dist ∧
      ¬ (cameraFor000 ⟨lit "left", [0, 90, 0], 50⟩).dist =
          (⟨lit "left", [0, 90, 0], (50 : ℚ)⟩ : ViewSpec).distance :=
  claim6_theorem.2 ⟨lit "left", [0, 90, 0], 50⟩ (by decide)

/-! ### Claims C7 and C8: render orchestration -/

theorem errorNames_head (v : ViewSpec) (rest : List ViewSpec) (cause : Str) :
    errorNamesView (v :: rest) (msgRev1 v cause) = true := by
  unfold errorNamesView
  rw [List.any_cons, Bool.or_eq_true]
  left
  apply findFrom_isSome_of_occursAt v.name (msgRev1 v cause)
    (lit "Failed to render view ").length
  unfold msgRev1
  rw [List.append_assoc, List.append_assoc]
  exact occursAt_append_mid (lit "Failed to render view ") v.name
    (lit ": " ++ cause)

theorem errorNames_tail (v : ViewSpec) (rest : List ViewSpec) (msg : Str)
    (h : errorNamesView rest msg = true) :
    errorNamesView (v :: rest) msg = true := by
  unfold errorNamesView at h ⊢
  rw [List.any_cons, Bool.or_eq_true]
  right
  exact h

theorem renderLoop000_cleaned (oracle : RenderOracle) :
    ∀ (views : List ViewSpec) (acc : List RenderResult),
      (renderLoop000 oracle views acc).tempCleaned = true := by
  intro views
  induction views with
  | nil => intro acc; rfl
  | cons v rest ih =>
    intro acc
    simp only [renderLoop000]
    cases hov : oracle v with
    | error cause => simp only [hov]
    | ok img =>
      simp only [hov]
      exact ih _

theorem renderLoop000_ok_map (oracle : RenderOracle) :
    ∀ (views : List ViewSpec) (acc : List RenderResult) (rs : List RenderResult),
      (renderLoop000 oracle views acc).res = .ok rs →
      rs.map (fun r => r.view) =
        acc.reverse.map (fun r => r.view) ++ views.map (fun v => v.name) := by
  intro views
  induction views with
  | nil =>
    intro acc rs h
    simp only [renderLoop000] at h
    have hr := RenderRes.ok.inj h
    rw [← hr]
    simp
  | cons v rest ih =>
    intro acc rs h
    simp only [renderLoop000] at h
    cases hov : oracle v with
    | error cause =>
      simp only [hov] at h
      simp at h
    | ok img =>
      simp only [hov] at h
      have := ih (⟨v.name, img⟩ :: acc) rs h
      rw [this]
      simp

theorem renderLoop001_ok_map (oracle : RenderOracle) :
    ∀ (views : List ViewSpec) (acc : List RenderResult) (rs : List RenderResult),
      (renderLoop001 oracle views acc).res = .ok rs →
      rs.map (fun r => r.view) =
        acc.reverse.map (fun r => r.view) ++ views.map (fun v => v.name) := by
  intro views
  induction views with
  | nil =>
    intro acc rs h
    simp only [renderLoop001] at h
    have hr := RenderRes.ok.inj h
    rw [← hr]
    simp
  | cons v rest ih =>
    intro acc rs h
    simp only [renderLoop001] at h
    cases hov : oracle v with
    | error cause =>
      simp only [hov] at h
      simp at h
    | ok img =>
      simp only [hov] at h
      have := ih (⟨v.name, img⟩ :: acc) rs h
      rw [this]
      simp

theorem renderLoopRev1_ok_map (oracle : RenderOracle) :
    ∀ (views : List ViewSpec) (acc : List RenderResult) (rs : List RenderResult),
      (renderLoopRev1 oracle views acc).res = .ok rs →
      rs.map (fun r => r.view) =
        acc.reverse.map (fun r => r.view) ++ views.map (fun v => v.name) := by
  intro views
  induction views with
  | nil =>
    intro acc rs h
    simp only [renderLoopRev1] at h
    have hr := RenderRes.ok.inj h
    rw [← hr]
    simp
  | cons v rest ih =>
    intro acc rs h
    simp only [renderLoopRev1] at h
    by_cases h1 : ¬ v.angle.length = 3
    · rw [if_pos h1] at h
      simp at h
    · rw [if_neg h1] at h
      by_cases h2 : v.distance ≤ 0
      · rw [if_pos h2] at h
        simp at h
      · rw [if_neg h2] at h
        cases hov : oracle v with
        | error cause =>
          simp only [hov] at h
          simp at h
        | ok img =>
          simp only [hov] at h
          have := ih (⟨v.name, img⟩ :: acc) rs h
          rw [this]
          simp

theorem renderLoopRev1_names (oracle : RenderOracle) :
    ∀ (views : List ViewSpec) (acc : List RenderResult) (msg : Str),
      (renderLoopRev1 oracle views acc).res = .err msg →
      errorNamesView views msg = true := by
  intro views
  induction views with
  | nil =>
    intro acc msg h
    simp only [renderLoopRev1] at h
    simp at h
  | cons v rest ih =>
    intro acc msg h
    simp only [renderLoopRev1] at h
    by_cases h1 : ¬ v.angle.length = 3
    · rw [if_pos h1] at h
      simp only at h
      have hm := RenderRes.err.inj h
      rw [← hm]
      exact errorNames_head v rest _
    · rw [if_neg h1] at h
      by_cases h2 : v.distance ≤ 0
      · rw [if_pos h2] at h
        simp only at h
        have hm := RenderRes.err.inj h
        rw [← hm]
        exact errorNames_head v rest _
      · rw [if_neg h2] at h
        cases hov : oracle v with
        | error cause =>
          simp only [hov] at h
          have hm := RenderRes.err.inj h
          rw [← hm]
          exact errorNames_head v rest _
        | ok img =>
          simp only [hov] at h
          exact errorNames_tail v rest msg (ih _ _ h)

/-- C7, counterexample: with an external render that fails on the single
view of modelC7, the first index.ts revision's render fails with an error
naming the view but does NOT remove the per-call scratch workspace on that
failure path — its catch block rethrows without cleanup. -/
theorem claim7_counterexample :
    (renderRev1 failOracle modelC7).tempCleaned = false ∧
      (renderRev1 failOracle modelC7).res =
        .err (msgRev1 ⟨lit "front", [0, 0, 0], 150⟩ (lit "boom")) :=
  ⟨by decide, by decide⟩

/-- C7, amended: if rendering any single view fails, the whole render call
fails and no partial result set is returned (a result list exists only when
every view rendered, one result per view); part_000's revision removes the
per-call scratch workspace on every exit path, and the index.ts revision's
failure error names the failing view.  (part_000's failure message omits
the view name, and the index.ts revision leaves the scratch directory
behind on failure.) -/
theorem claim7_theorem :
    (∀ (oracle : RenderOracle) (m : CADModel),
      (render000 oracle m).tempCleaned = true) ∧
    (∀ (oracle : RenderOracle) (m : CADModel) (msg : Str),
      (renderRev1 oracle m).res = .err msg → errorNamesView m.views msg = true) ∧
    (∀ (oracle : RenderOracle) (m : CADModel) (rs : List RenderResult),
      (render000 oracle m).res = .ok rs → rs.length = m.views.length) ∧
    (∀ (oracle : RenderOracle) (m : CADModel) (rs : List RenderResult),
      (renderRev1 oracle m).res = .ok rs → rs.length = m.views.length) := by
  refine ⟨?_, ?_, ?_, ?_⟩
  · intro oracle m
    exact renderLoop000_cleaned oracle m.views []
  · intro oracle m msg h
    exact renderLoopRev1_names oracle m.views [] msg h
  · intro oracle m rs h
    have hm := renderLoop000_ok_map oracle m.views [] rs h
    simp at hm
    have := congrArg List.length hm
    simpa using this
  · intro oracle m rs h
    have hm := renderLoopRev1_ok_map oracle m.views [] rs h
    simp at hm
    have := congrArg List.length hm
    simpa using this

/-- C7, witness: the amended theorem applied to the failing render of
modelC7. -/
theorem claim7_witness :
    (render000 failOracle modelC7).tempCleaned = true ∧
      errorNamesView modelC7.views
        (msgRev1 ⟨lit "front", [0, 0, 0], 150⟩ (lit "boom")) = true :=
  ⟨claim7_theorem.1 failOracle modelC7,
   claim7_theorem.2.1 failOracle modelC7 _ (by decide)⟩

/-! (C8 has no counterexample: the claim is confirmed.) -/

/-- C8: for every Design on which render succeeds (part_000 and part_001),
it returns exactly one RenderResult per ViewSpec, in the same order as the
Design's views, with each result's view field equal to the corresponding
ViewSpec's name. -/
theorem claim8_theorem (oracle : RenderOracle) (m : CADModel)
    (rs : List RenderResult) :
    ((render000 oracle m).res = .ok rs →
      rs.map (fun r => r.view) = m.views.map (fun v => v.name) ∧
        rs.length = m.views.length) ∧
    ((render001 oracle m).res = .ok rs →
      rs.map (fun r => r.view) = m.views.map (fun v => v.name) ∧
        rs.length = m.views.length) := by
  constructor
  · intro h
    have hm := renderLoop000_ok_map oracle m.views [] rs h
    simp at hm
    refine ⟨hm, ?_⟩
    have := congrArg List.length hm
    simpa using this
  · intro h
    have hm := renderLoop001_ok_map oracle m.views [] rs h
    simp at hm
    refine ⟨hm, ?_⟩
    have := congrArg List.length hm
    simpa using this

/-- C8, witness: the theorem applied to a successful two-view render. -/
theorem claim8_witness :
    ([⟨lit "front", lit "img"⟩, ⟨lit "side", lit "img"⟩] : List RenderResult).map
        (fun r => r.view) = modelC8.views.map (fun v => v.name) ∧
      ([⟨lit "front", lit "img"⟩, ⟨lit "side", lit "img"⟩] : List RenderResult).length =
        modelC8.views.length :=
  (claim8_theorem okOracleC8 modelC8
    [⟨lit "front", lit "img"⟩, ⟨lit "side", lit "img"⟩]).1 (by decide)

/-! ### Claims C9 and C10: which part of the response is consumed -/

theorem lowerOpenTag : lower (lit "<openscad>") = lit "<openscad>" := by decide

theorem extractCode_eval (ci : Bool) (s : Str) (j : Nat)
    (h0 : findFrom (lit "<openscad>") (if ci then lower s else s) 0 = some 0)
    (hj : findFrom (lit "</openscad>") (if ci then lower s else s) 10 = some j) :
    extractCode ci s = some ((s.drop 10).take (j - 10)) := by
  unfold extractCode
  dsimp only
  simp only [h0, Nat.zero_add, hj]

theorem extractViews_eval (s : Str) (i : Nat)
    (h : findFrom (lit "views:") (lower s) 0 = some i) :
    extractViews s = some
      ((s.drop (i + 6)).take (termIdx (lower s) (i + 6) - (i + 6))) := by
  unfold extractViews
  dsimp only
  simp only [h]

/-- C9: for every response containing two (or more) delimited code
sections, parse succeeds and the returned Design's code is the trimmed
content of the first (earliest) section; the body of any later section is
ignored as code.  Shown for part_001's parse and the first index.ts
revision's parse, whose code regexes differ only in case sensitivity; the
hypotheses pin the position of the first closing marker and are discharged
by evaluation in the witness. -/
theorem claim9_theorem (a mid c tail : Str)
    (hci : findFrom (lit "</openscad>") (lower (twoBlocks a mid c tail)) 10 =
      some (10 + a.length))
    (hcs : findFrom (lit "</openscad>") (twoBlocks a mid c tail) 10 =
      some (10 + a.length)) :
    okCode (parseResponse001 (twoBlocks a mid c tail)) = some (trim a) ∧
      okCode (parseResponseRev1 (twoBlocks a mid c tail)) = some (trim a) := by
  have hopen_cs : findFrom (lit "<openscad>") (twoBlocks a mid c tail) 0 = some 0 := by
    apply findFrom_zero
    unfold twoBlocks
    exact occursAt_zero _ _
  have hopen_ci : findFrom (lit "<openscad>") (lower (twoBlocks a mid c tail)) 0 =
      some 0 := by
    apply findFrom_zero
    unfold twoBlocks
    rw [lower_append, lowerOpenTag]
    exact occursAt_zero _ _
  have hslice : (((twoBlocks a mid c tail).drop 10).take ((10 + a.length) - 10)) = a := by
    have h1 : (10 + a.length) - 10 = a.length := by omega
    rw [h1]
    have h2 : (10 : Nat) = (lit "<openscad>").length := by decide
    rw [h2]
    unfold twoBlocks
    exact slice_mid (lit "<openscad>") a _
  have hci2 : extractCode true (twoBlocks a mid c tail) = some a := by
    have h := extractCode_eval true (twoBlocks a mid c tail) (10 + a.length)
      hopen_ci hci
    rw [hslice] at h
    exact h
  have hcs2 : extractCode false (twoBlocks a mid c tail) = some a := by
    have h := extractCode_eval false (twoBlocks a mid c tail) (10 + a.length)
      hopen_cs hcs
    rw [hslice] at h
    exact h
  constructor
  · unfold parseResponse001
    rw [hci2]
    rfl
  · unfold parseResponseRev1
    rw [hcs2]
    rfl

/-- C9, witness: two concrete code sections with bodies A(); and B();, the
first one wins. -/
theorem claim9_witness :
    okCode (parseResponse001
        (twoBlocks (lit "A();") (lit " x ") (lit "B();") (lit ""))) =
      some (trim (lit "A();")) ∧
      okCode (parseResponseRev1
          (twoBlocks (lit "A();") (lit " x ") (lit "B();") (lit ""))) =
        some (trim (lit "A();")) :=
  claim9_theorem (lit "A();") (lit " x ") (lit "B();") (lit "")
    (by decide) (by decide)

/-- C10: the views section consumed by parse extends only from the first
"views:" marker to the first blank-line terminator after it; everything
after the terminator is invisible to the view entries and to the
minimum-views policy — replacing the text after the terminator by anything
else (for which the same occurrence hypotheses hold) changes neither the
entry list nor the final view set, for part_000 and part_001 alike. -/
theorem claim10_theorem (a post post2 : Str)
    (hv : findFrom (lit "views:") (lower (viewsScene a post)) 0 = some 25)
    (hv2 : findFrom (lit "views:") (lower (viewsScene a post2)) 0 = some 25)
    (ht : termIdx (lower (viewsScene a post)) 31 = 31 + a.length)
    (ht2 : termIdx (lower (viewsScene a post2)) 31 = 31 + a.length) :
    entries000 (viewsScene a post) = entries000 (viewsScene a post2) ∧
      viewsOf000 (viewsScene a post) = viewsOf000 (viewsScene a post2) ∧
      entries001 (viewsScene a post) = entries001 (viewsScene a post2) ∧
      viewsOf001 (viewsScene a post) = viewsOf001 (viewsScene a post2) := by
  have hx : extractViews (viewsScene a post) = some a := by
    rw [extractViews_eval _ _ hv]
    have ht3 : termIdx (lower (viewsScene a post)) (25 + 6) = 31 + a.length := ht
    rw [ht3]
    have h1 : 31 + a.length - (25 + 6) = a.length := by omega
    rw [h1]
    have h2 : (25 + 6 : Nat) = (preC10).length := by decide
    rw [h2]
    unfold viewsScene
    rw [slice_mid preC10 a (lit "\n\n" ++ post)]
  have hx2 : extractViews (viewsScene a post2) = some a := by
    rw [extractViews_eval _ _ hv2]
    have ht3 : termIdx (lower (viewsScene a post2)) (25 + 6) = 31 + a.length := ht2
    rw [ht3]
    have h1 : 31 + a.length - (25 + 6) = a.length := by omega
    rw [h1]
    have h2 : (25 + 6 : Nat) = (preC10).length := by decide
    rw [h2]
    unfold viewsScene
    rw [slice_mid preC10 a (lit "\n\n" ++ post2)]
  refine ⟨?_, ?_, ?_, ?_⟩
  · unfold entries000
    simp only [hx, hx2]
  · unfold viewsOf000 parsedViews000 entries000
    simp only [hx, hx2]
  · unfold entries001
    simp only [hx, hx2]
  · unfold viewsOf001 parsedViews001 entries001
    simp only [hx, hx2]

/-- C10, witness: three well-formed entries placed after the blank-line
terminator leave the view set exactly as if they were absent (the defaults,
since the section itself is empty) — they do not count toward the
threshold. -/
theorem claim10_witness :
    viewsOf000 (viewsScene (lit "")
        (lit "- name: \"x\" angle: [1,2,3] distance: 5\n- name: \"y\" angle: [1,2,3] distance: 5\n- name: \"z\" angle: [1,2,3] distance: 5")) =
      viewsOf000 (viewsScene (lit "") (lit "")) :=
  (claim10_theorem (lit "")
    (lit "- name: \"x\" angle: [1,2,3] distance: 5\n- name: \"y\" angle: [1,2,3] distance: 5\n- name: \"z\" angle: [1,2,3] distance: 5")
    (lit "") (by decide) (by decide) (by decide) (by decide)).2.1

end CadForge
